import Mathlib

/-!
# Verification of the DotRoll API client core (`DotRoll/api.py`)

A shallow embedding of the transport / action layers of the DotRoll SDK:

* `QueryHandler` — the abstract transport contract (one field per HTTP verb);
  the concrete `encode` helper of the base class is embedded as the function
  `encode` below (it delegates to `urllib.quote` with its default
  `safe` parameter, which is the single forward slash).
* `ActionHandler` — the mapping layer from domain operations to paths.
* `MockQueryHandler` — the expectation-queue test double.  Its mutable
  `expectations` list is embedded by explicit state passing: every operation
  takes the current queue and returns the (possibly shortened) queue next to
  an `Except` result.

Python exceptions are embedded as the `PyError` sum.  Several operations of
the source raise a different exception than the surrounding code intends:

* `raise QueryFailed()` omits the constructor's required `description`
  argument, so Python raises `TypeError` at that point (`PyError.typeError`);
* the body-mismatch branch of `check_expectation` joins the message pieces
  with `.` instead of `+`, which Python parses as attribute access on a
  string literal, raising `AttributeError` (`PyError.attributeError`);
* `delete` reads `result.body` on a dict, again an `AttributeError`.

The embedding reproduces the behaviour Python exhibits, not the apparent
intent, and records the intent in the doc comments of the definitions.

`json.loads` is an external collaborator (the standard library); it is
embedded as `json_loads` via a small executable JSON reader covering the
fragment the repository exercises (null, booleans, integers, escape-free
strings, arrays, objects); inputs outside that fragment decode to `none`,
standing for the cases this development does not reason about.
-/

namespace DotRoll

/-- JSON values, the results of decoding a stub response body.  Numbers are
restricted to integers: no stub body in the repository uses fractions, and no
claim depends on numeric semantics. -/
inductive Json where
  | null : Json
  | bool (b : Bool) : Json
  | num (n : Int) : Json
  | str (s : String) : Json
  | arr (elems : List Json) : Json
  | obj (members : List (String × Json)) : Json
  deriving Repr

/-- JSON insignificant whitespace. -/
def isWs (c : Char) : Bool := c = ' ' || c = '\t' || c = '\n' || c = '\r'

/-- Drop leading JSON whitespace. -/
def skipWs : List Char → List Char
  | [] => []
  | c :: rest => if isWs c then skipWs rest else c :: rest

/-- Split a maximal run of leading decimal digits from the rest. -/
def takeDigits : List Char → List Char × List Char
  | [] => ([], [])
  | c :: rest =>
    if c.isDigit then
      let p := takeDigits rest
      (c :: p.1, p.2)
    else ([], c :: rest)

/-- Value of a digit run, most significant first. -/
def digitsVal (ds : List Char) : Nat :=
  ds.foldl (fun acc c => acc * 10 + (c.toNat - 48)) 0

/-- Read a string body up to the closing quote (escape sequences are outside
the embedded fragment). -/
def takeStringBody : List Char → Option (String × List Char)
  | [] => none
  | c :: rest =>
    if c = '"' then some ("", rest)
    else
      match takeStringBody rest with
      | some (s, rem) => some (String.singleton c ++ s, rem)
      | none => none

mutual

/-- Fuel-indexed JSON value reader. -/
def parseVal : Nat → List Char → Option (Json × List Char)
  | 0, _ => none
  | fuel + 1, input =>
    match skipWs input with
    | [] => none
    | c :: rest =>
      if c = 'n' then
        match rest with
        | 'u' :: 'l' :: 'l' :: rem => some (.null, rem)
        | _ => none
      else if c = 't' then
        match rest with
        | 'r' :: 'u' :: 'e' :: rem => some (.bool true, rem)
        | _ => none
      else if c = 'f' then
        match rest with
        | 'a' :: 'l' :: 's' :: 'e' :: rem => some (.bool false, rem)
        | _ => none
      else if c = '"' then
        match takeStringBody rest with
        | some (s, rem) => some (.str s, rem)
        | none => none
      else if c = '-' then
        match takeDigits rest with
        | ([], _) => none
        | (ds, rem) => some (.num (-(digitsVal ds : Int)), rem)
      else if c.isDigit then
        match takeDigits (c :: rest) with
        | (ds, rem) => some (.num (digitsVal ds), rem)
      else if c = '[' then
        match skipWs rest with
        | ']' :: rem => some (.arr [], rem)
        | rem2 =>
          match parseElems fuel rem2 with
          | some (xs, rem) => some (.arr xs, rem)
          | none => none
      else if c = '{' then
        match skipWs rest with
        | '}' :: rem => some (.obj [], rem)
        | rem2 =>
          match parseMembers fuel rem2 with
          | some (kvs, rem) => some (.obj kvs, rem)
          | none => none
      else none

/-- Fuel-indexed reader for the elements of a non-empty array, up to and
including the closing bracket. -/
def parseElems : Nat → List Char → Option (List Json × List Char)
  | 0, _ => none
  | fuel + 1, input =>
    match parseVal fuel input with
    | none => none
    | some (v, rem) =>
      match skipWs rem with
      | ',' :: rem2 =>
        match parseElems fuel rem2 with
        | some (xs, rem3) => some (v :: xs, rem3)
        | none => none
      | ']' :: rem2 => some ([v], rem2)
      | _ => none

/-- Fuel-indexed reader for the members of a non-empty object, up to and
including the closing brace. -/
def parseMembers : Nat → List Char → Option (List (String × Json) × List Char)
  | 0, _ => none
  | fuel + 1, input =>
    match skipWs input with
    | '"' :: rest =>
      match takeStringBody rest with
      | none => none
      | some (k, rem) =>
        match skipWs rem with
        | ':' :: rem2 =>
          match parseVal fuel rem2 with
          | none => none
          | some (v, rem3) =>
            match skipWs rem3 with
            | ',' :: rem4 =>
              match parseMembers fuel rem4 with
              | some (kvs, rem5) => some ((k, v) :: kvs, rem5)
              | none => none
            | '}' :: rem4 => some ([(k, v)], rem4)
            | _ => none
        | _ => none
    | _ => none

end

/-- Decode a whole string as one JSON document.  The fuel `2 * length + 2`
exceeds the number of reader steps any input of that length can take, since
every recursive step first consumes at least one character. -/
def Json.parse (s : String) : Option Json :=
  match parseVal (2 * s.length + 2) s.data with
  | some (v, rem) => if skipWs rem = [] then some v else none
  | none => none

/-!
## Errors

Python exceptions raised (or raisable) by the embedded code, as one sum.
-/

/-- The exceptions the embedded code can raise.  `queryFailed` and
`expectationFailed` are the two classes declared in `api.py`;
`typeError`, `attributeError`, `indexError` and `valueError` are the
built-in exceptions that the slips described in the file header actually
produce at runtime. -/
inductive PyError where
  | queryFailed (description : String)
  | expectationFailed (description : String)
  | typeError (message : String)
  | attributeError (message : String)
  | indexError (message : String)
  | valueError (message : String)
  deriving DecidableEq, Repr

/-- `json.loads`: decoding failure is a `ValueError` in Python. -/
def json_loads (s : String) : Except PyError Json :=
  match Json.parse s with
  | some v => .ok v
  | none => .error (.valueError "No JSON object could be decoded")

/-!
## The expectation queue (`MockQueryHandler`)

The `expectations` list is the only mutable state; each operation below is
state passing: it receives the queue and returns the new queue.  Note that in
the source `expectations = []` sits in the class body, so the list is a class
attribute shared by every instance; the sharing itself is modelled further
down (`classAddExpectation` / `classGetExpectation`).
-/

/-- One queued expectation record, the dict built by `add_expectation`. -/
structure Expectation where
  expected_url : String
  expected_query_type : String
  expected_body : String
  response_code : Int
  response_body : String
  deriving DecidableEq, Repr

namespace MockQueryHandler

/-- `add_expectation`: append one record at the tail of the queue. -/
def add_expectation (s : List Expectation) (expected_url expected_query_type
    expected_body : String) (response_code : Int) (response_body : String) :
    List Expectation :=
  s ++ [⟨expected_url, expected_query_type, expected_body,
         response_code, response_body⟩]

/-- `get_expectation`: `self.expectations.pop(0)`.  On an empty list Python
raises `IndexError`; the state is unchanged in that case because the error is
raised before any mutation. -/
def get_expectation (s : List Expectation) :
    Except PyError (Expectation × List Expectation) :=
  match s with
  | [] => .error (.indexError "pop from empty list")
  | e :: rest => .ok (e, rest)

/-- `check_expectation`: pop the head record and compare it against the
actual call.  The first two mismatch branches raise `ExpectationFailed` with
the exact messages concatenated in the source.  The body-mismatch branch of
the source joins its message with `.` instead of `+`; Python parses that as
the attribute access `('... Expected body: ').exp` and raises
`AttributeError` before any `ExpectationFailed` is constructed.  In every
branch the head has already been popped, so the returned queue is the tail. -/
def check_expectation (s : List Expectation) (url query_type body : String) :
    Except PyError (Int × String) × List Expectation :=
  match get_expectation s with
  | .error e => (.error e, s)
  | .ok (exp, rest) =>
    if exp.expected_url ≠ url then
      (.error (.expectationFailed ("Expected URL " ++ exp.expected_url ++
        " , got " ++ url)), rest)
    else if exp.expected_query_type ≠ query_type then
      (.error (.expectationFailed ("Expected " ++ exp.expected_query_type ++
        " query, got " ++ query_type ++ " query")), rest)
    else if exp.expected_body ≠ body then
      (.error (.attributeError "str object has no attribute exp"), rest)
    else
      (.ok (exp.response_code, exp.response_body), rest)

/-- `MockQueryHandler.get`.  The status check reads `raise QueryFailed()` in
the source; `QueryFailed.__init__` requires a `description` argument, so the
statement itself raises `TypeError`. -/
def get (s : List Expectation) (url : String) :
    Except PyError Json × List Expectation :=
  match check_expectation s url "get" "" with
  | (.error e, rest) => (.error e, rest)
  | (.ok (code, body), rest) =>
    if code ≠ 200 then
      (.error (.typeError "init takes exactly 2 arguments (1 given)"), rest)
    else
      (json_loads body, rest)

/-- `MockQueryHandler.delete`.  After a successful status check the source
returns `json.loads(result.body)`, but `result` is a dict, so evaluating
`result.body` raises `AttributeError` and the decoded body is never
returned. -/
def delete (s : List Expectation) (url : String) :
    Except PyError Json × List Expectation :=
  match check_expectation s url "delete" "" with
  | (.error e, rest) => (.error e, rest)
  | (.ok (code, _body), rest) =>
    if code ≠ 200 then
      (.error (.typeError "init takes exactly 2 arguments (1 given)"), rest)
    else
      (.error (.attributeError "dict object has no attribute body"), rest)

/-- `MockQueryHandler.post`.  The source calls
`check_expectation(url, 'post', 'data')`: the third argument is the literal
string of the four letters d, a, t, a, not the `data` parameter, which is
never read. -/
def post (s : List Expectation) (url : String) (data : String) :
    Except PyError Json × List Expectation :=
  match check_expectation s url "post" "data" with
  | (.error e, rest) => (.error e, rest)
  | (.ok (code, body), rest) =>
    if code ≠ 201 then
      (.error (.typeError "init takes exactly 2 arguments (1 given)"), rest)
    else
      (json_loads body, rest)

/-- `MockQueryHandler.put`.  Same literal-`'data'` argument as `post`;
accepted status codes are 200, 201 and 204. -/
def put (s : List Expectation) (url : String) (data : String) :
    Except PyError Json × List Expectation :=
  match check_expectation s url "put" "data" with
  | (.error e, rest) => (.error e, rest)
  | (.ok (code, body), rest) =>
    if code ≠ 200 ∧ code ≠ 201 ∧ code ≠ 204 then
      (.error (.typeError "init takes exactly 2 arguments (1 given)"), rest)
    else
      (json_loads body, rest)

end MockQueryHandler

/-!
## Class-level sharing of the expectation list

`expectations = []` is executed once, in the class body of
`MockQueryHandler`; no instance ever rebinds the attribute (`append` and
`pop` mutate in place), so attribute lookup always reaches the one list on
the class.  The two wrappers below make that explicit: they take the shared
list together with the identity of the instance the method is invoked on,
and the instance identity does not enter the result — exactly the Python
semantics. -/

/-- `some_instance.add_expectation(...)` under class-attribute sharing: the
receiving instance `_inst` plays no role. -/
def classAddExpectation (shared : List Expectation) (_inst : Nat)
    (expected_url expected_query_type expected_body : String)
    (response_code : Int) (response_body : String) : List Expectation :=
  MockQueryHandler.add_expectation shared expected_url expected_query_type
    expected_body response_code response_body

/-- `some_instance.get_expectation()` under class-attribute sharing: the
receiving instance `_inst` plays no role. -/
def classGetExpectation (shared : List Expectation) (_inst : Nat) :
    Except PyError (Expectation × List Expectation) :=
  MockQueryHandler.get_expectation shared

/-!
## `QueryHandler.encode`

`encode` lives on the abstract base class, is inherited unchanged by every
handler, and delegates to `urllib.quote(str(rawstring))`.  In Python 2,
`urllib.quote` keeps the characters of `always_safe` (ASCII letters, digits,
`_`, `.`, `-`) and of its `safe` parameter — which defaults to the single
character `/` — and replaces every other byte by `%` followed by two
uppercase hex digits.  Inputs are Python 2 byte strings; the embedding takes
each character's code point modulo 256. -/

/-- `urllib.always_safe`: the characters `quote` never encodes. -/
def always_safe : List Char :=
  ("ABCDEFGHIJKLMNOPQRSTUVWXYZabcdefghijklmnopqrstuvwxyz0123456789_.-").data

/-- Uppercase hexadecimal digit for `n < 16`. -/
def hexDigitChar (n : Nat) : Char := ("0123456789ABCDEF").data.getD n '0'

/-- `urllib.quote` applied to one character: keep it when safe, else
percent-encode its byte value. -/
def quoteChar (safe : List Char) (c : Char) : List Char :=
  if c ∈ always_safe ∨ c ∈ safe then [c]
  else ['%', hexDigitChar (c.toNat % 256 / 16), hexDigitChar (c.toNat % 16)]

/-- `urllib.quote`: per-character quoting, concatenated in order. -/
def quoteChars (safe : List Char) : List Char → List Char
  | [] => []
  | c :: rest => quoteChar safe c ++ quoteChars safe rest

/-- `QueryHandler.encode(rawstring) = urllib.quote(str(rawstring))`, with
`quote`'s default `safe` parameter, the single character `/`. -/
def encode (s : String) : String := ⟨quoteChars ['/'] s.data⟩

/-!
## The abstract transport and the action layer
-/

/-- HTTP verbs of the transport contract. -/
inductive Verb where
  | get | delete | post | put
  deriving DecidableEq, Repr

/-- The abstract `QueryHandler` contract: one operation per verb, each
producing a value of the handler's result type `α`. -/
structure QueryHandler (α : Type) where
  get : String → α
  delete : String → α
  post : String → String → α
  put : String → String → α

/-- One transport call as observed from outside: verb, url, and the body
argument for `post`/`put`. -/
structure Call where
  verb : Verb
  url : String
  body : Option String
  deriving DecidableEq, Repr

/-- A handler whose result is the list of transport calls it received; an
action issues exactly one call with a given verb and path exactly when
running it against this handler yields that singleton list. -/
def traceHandler : QueryHandler (List Call) where
  get url := [⟨.get, url, none⟩]
  delete url := [⟨.delete, url, none⟩]
  post url data := [⟨.post, url, some data⟩]
  put url data := [⟨.put, url, some data⟩]

namespace ActionHandler

variable {α : Type}

/-- `get_domain_prices(currency)`: GET `domain/prices/{currency}`. -/
def get_domain_prices (qh : QueryHandler α) (currency : String) : α :=
  qh.get ("domain/prices/" ++ currency)

/-- `get_hosting_prices(currency)`: GET `hosting/prices/{currency}`. -/
def get_hosting_prices (qh : QueryHandler α) (currency : String) : α :=
  qh.get ("hosting/prices/" ++ currency)

/-- `get_vps_prices(currency)`: GET `vps/prices/{currency}`. -/
def get_vps_prices (qh : QueryHandler α) (currency : String) : α :=
  qh.get ("vps/prices/" ++ currency)

/-- `get_domain_availability(domainname)`: GET
`domain/search/{encode(domainname)}`, via the inherited `encode` of the
query handler's base class. -/
def get_domain_availability (qh : QueryHandler α) (domainname : String) : α :=
  qh.get ("domain/search/" ++ encode domainname)

/-- `get_domain_list()`: GET `domain/list`. -/
def get_domain_list (qh : QueryHandler α) : α :=
  qh.get "domain/list"

end ActionHandler

/-!
## Driving the mock with whole calls

Helpers used to state the queue-discipline properties: a `Call` is executed
against the mock by dispatching on its verb. -/

/-- The `query_type` string each mock operation passes to
`check_expectation`. -/
def verbString : Verb → String
  | .get => "get"
  | .delete => "delete"
  | .post => "post"
  | .put => "put"

/-- The body value each mock operation passes to `check_expectation`:
`get`/`delete` pass the empty string; `post`/`put` pass the literal string
d-a-t-a regardless of their `data` argument. -/
def mockSentBody : Verb → String
  | .get => ""
  | .delete => ""
  | .post => "data"
  | .put => "data"

/-- Execute one call against the mock, dispatching on the verb. -/
def runCall (s : List Expectation) : Call → Except PyError Json × List Expectation
  | ⟨.get, url, _⟩ => MockQueryHandler.get s url
  | ⟨.delete, url, _⟩ => MockQueryHandler.delete s url
  | ⟨.post, url, body⟩ => MockQueryHandler.post s url (body.getD "")
  | ⟨.put, url, body⟩ => MockQueryHandler.put s url (body.getD "")

/-- The head expectation lets a call through `check_expectation` exactly when
url, query-type string and sent body all agree. -/
def matchesCall (e : Expectation) (c : Call) : Prop :=
  e.expected_url = c.url ∧ e.expected_query_type = verbString c.verb ∧
    e.expected_body = mockSentBody c.verb

instance (e : Expectation) (c : Call) : Decidable (matchesCall e c) := by
  unfold matchesCall; infer_instance

/-- A result-state pair whose result is a normal return. -/
def okResult (r : Except PyError Json × List Expectation) : Bool :=
  match r.1 with
  | .ok _ => true
  | .error _ => false

/-- Output-side safety of one encoded string: every character is always-safe,
a kept `/`, or the `%` that heads an escape. -/
def pathCharsetOk (s : String) : Bool :=
  (encode s).data.all fun c => always_safe.contains c || c == '/' || c == '%'

/-!
## Helper lemmas
-/

/-- A mock call only ever examines the head of the queue: `check_expectation`
on a longer queue produces the same result as on the singleton queue of its
head, and the returned queue is the old tail. -/
theorem check_expectation_cons (e : Expectation) (t : List Expectation)
    (url q b : String) :
    MockQueryHandler.check_expectation (e :: t) url q b =
      ((MockQueryHandler.check_expectation [e] url q b).1, t) := by
  simp only [MockQueryHandler.check_expectation, MockQueryHandler.get_expectation]
  split_ifs <;> rfl

/-- Frame property of `MockQueryHandler.get`. -/
theorem mockGet_cons (e : Expectation) (t : List Expectation) (url : String) :
    MockQueryHandler.get (e :: t) url = ((MockQueryHandler.get [e] url).1, t) := by
  simp only [MockQueryHandler.get]
  rw [check_expectation_cons]
  rcases MockQueryHandler.check_expectation [e] url "get" ""
    with ⟨err | ⟨code, rbody⟩, s2⟩
  · rfl
  · by_cases hc : code = 200 <;> simp [hc]

/-- Frame property of `MockQueryHandler.delete`. -/
theorem mockDelete_cons (e : Expectation) (t : List Expectation) (url : String) :
    MockQueryHandler.delete (e :: t) url =
      ((MockQueryHandler.delete [e] url).1, t) := by
  simp only [MockQueryHandler.delete]
  rw [check_expectation_cons]
  rcases MockQueryHandler.check_expectation [e] url "delete" ""
    with ⟨err | ⟨code, rbody⟩, s2⟩
  · rfl
  · by_cases hc : code = 200 <;> simp [hc]

/-- Frame property of `MockQueryHandler.post`. -/
theorem mockPost_cons (e : Expectation) (t : List Expectation)
    (url data : String) :
    MockQueryHandler.post (e :: t) url data =
      ((MockQueryHandler.post [e] url data).1, t) := by
  simp only [MockQueryHandler.post]
  rw [check_expectation_cons]
  rcases MockQueryHandler.check_expectation [e] url "post" "data"
    with ⟨err | ⟨code, rbody⟩, s2⟩
  · rfl
  · by_cases hc : code = 201 <;> simp [hc]

/-- Frame property of `MockQueryHandler.put`. -/
theorem mockPut_cons (e : Expectation) (t : List Expectation)
    (url data : String) :
    MockQueryHandler.put (e :: t) url data =
      ((MockQueryHandler.put [e] url data).1, t) := by
  simp only [MockQueryHandler.put]
  rw [check_expectation_cons]
  rcases MockQueryHandler.check_expectation [e] url "put" "data"
    with ⟨err | ⟨code, rbody⟩, s2⟩
  · rfl
  · by_cases h200 : code = 200 <;> by_cases h201 : code = 201 <;>
      by_cases h204 : code = 204 <;> simp [h200, h201, h204]

/-- Frame property of a whole call: the result is as on the singleton queue
holding the head alone, and the new queue is the old tail. -/
theorem runCall_cons (e : Expectation) (t : List Expectation) (c : Call) :
    runCall (e :: t) c = ((runCall [e] c).1, t) := by
  obtain ⟨v, url, body⟩ := c
  cases v
  · exact mockGet_cons e t url
  · exact mockDelete_cons e t url
  · exact mockPost_cons e t url (body.getD "")
  · exact mockPut_cons e t url (body.getD "")

/-- On a mismatch of url, query type or body, `check_expectation` reports an
error. -/
theorem check_expectation_mismatch (e : Expectation) (s : List Expectation)
    (url q b : String)
    (h : ¬(e.expected_url = url ∧ e.expected_query_type = q ∧
      e.expected_body = b)) :
    ∃ err, (MockQueryHandler.check_expectation (e :: s) url q b).1 =
      .error err := by
  simp only [MockQueryHandler.check_expectation, MockQueryHandler.get_expectation]
  split_ifs with h1 h2 h3
  · exact ⟨_, rfl⟩
  · exact ⟨_, rfl⟩
  · exact ⟨_, rfl⟩
  · exact absurd ⟨not_not.mp h1, not_not.mp h2, not_not.mp h3⟩ h

/-- A call whose url, verb or sent body disagrees with the head expectation
never returns normally. -/
theorem runCall_mismatch (A : Expectation) (t : List Expectation) (c : Call)
    (h : ¬ matchesCall A c) : okResult (runCall (A :: t) c) = false := by
  obtain ⟨v, url, body⟩ := c
  have h' : ¬(A.expected_url = url ∧ A.expected_query_type = verbString v ∧
      A.expected_body = mockSentBody v) := by
    simpa [matchesCall] using h
  obtain ⟨err, herr⟩ :=
    check_expectation_mismatch A t url (verbString v) (mockSentBody v) h'
  rcases hc : MockQueryHandler.check_expectation (A :: t) url (verbString v)
      (mockSentBody v) with ⟨r, s2⟩
  rw [hc] at herr
  simp only at herr
  subst herr
  cases v <;>
    simp only [verbString, mockSentBody] at hc <;>
    simp [runCall, MockQueryHandler.get, MockQueryHandler.delete,
      MockQueryHandler.post, MockQueryHandler.put, hc, okResult]

/-- Hex digits emitted by a percent escape are themselves always-safe. -/
theorem hexDigitChar_mem (n : Nat) : hexDigitChar n ∈ always_safe := by
  by_cases h : n < 16
  · interval_cases n <;> decide
  · unfold hexDigitChar
    rw [List.getD_eq_default]
    · decide
    · simpa using Nat.le_of_not_lt h

/-- Every character produced by `urllib.quote` with the default `safe`
parameter is always-safe, a kept `/`, or the `%` of an escape. -/
theorem quoteChars_charset (l : List Char) :
    ((quoteChars ['/'] l).all
      fun c => always_safe.contains c || c == '/' || c == '%') = true := by
  induction l with
  | nil => rfl
  | cons c rest ih =>
    simp only [quoteChars, List.all_append, ih, Bool.and_true]
    unfold quoteChar
    split_ifs with hs
    · rcases hs with hs | hs
      · simp [hs]
      · simp at hs
        simp [hs]
    · simp [hexDigitChar_mem]

/-!
## Claim theorems
-/

/-- C1: Every `ActionHandler` operation issues exactly one transport call,
with verb GET and the exact path of the mapping table — against any query
handler it is a single invocation of that handler's `get` at that path, and
against the call-recording handler the observed trace is the corresponding
singleton — and it returns the query handler's result unmodified. -/
theorem actionhandler_single_get_call (α : Type) (qh : QueryHandler α)
    (currency name : String) :
    ActionHandler.get_domain_prices qh currency =
      qh.get ("domain/prices/" ++ currency) ∧
    ActionHandler.get_hosting_prices qh currency =
      qh.get ("hosting/prices/" ++ currency) ∧
    ActionHandler.get_vps_prices qh currency =
      qh.get ("vps/prices/" ++ currency) ∧
    ActionHandler.get_domain_availability qh name =
      qh.get ("domain/search/" ++ encode name) ∧
    ActionHandler.get_domain_list qh = qh.get "domain/list" ∧
    ActionHandler.get_domain_prices traceHandler currency =
      [⟨.get, "domain/prices/" ++ currency, none⟩] ∧
    ActionHandler.get_hosting_prices traceHandler currency =
      [⟨.get, "hosting/prices/" ++ currency, none⟩] ∧
    ActionHandler.get_vps_prices traceHandler currency =
      [⟨.get, "vps/prices/" ++ currency, none⟩] ∧
    ActionHandler.get_domain_availability traceHandler name =
      [⟨.get, "domain/search/" ++ encode name, none⟩] ∧
    ActionHandler.get_domain_list traceHandler =
      [⟨.get, "domain/list", none⟩] :=
  ⟨rfl, rfl, rfl, rfl, rfl, rfl, rfl, rfl, rfl, rfl⟩

/-- C2: At a matching head expectation whose stub status code lies outside
the verb's accepted set the call does fail, but with `TypeError` — the
source constructs `QueryFailed()` without its required description argument
— not with a `QueryFailed` carrying a description; inside the accepted set
(200 for GET, 201 for POST, 200/201/204 for PUT) the call returns normally,
so neither error is raised. -/
theorem status_check_raises_typeerror_not_queryfailed :
    MockQueryHandler.get [⟨"u", "get", "", 500, "1"⟩] "u" =
      (.error (.typeError "init takes exactly 2 arguments (1 given)"), []) ∧
    MockQueryHandler.delete [⟨"u", "delete", "", 404, "1"⟩] "u" =
      (.error (.typeError "init takes exactly 2 arguments (1 given)"), []) ∧
    MockQueryHandler.post [⟨"u", "post", "data", 200, "1"⟩] "u" "d" =
      (.error (.typeError "init takes exactly 2 arguments (1 given)"), []) ∧
    MockQueryHandler.put [⟨"u", "put", "data", 418, "1"⟩] "u" "d" =
      (.error (.typeError "init takes exactly 2 arguments (1 given)"), []) ∧
    MockQueryHandler.get [⟨"u", "get", "", 200, "1"⟩] "u" =
      (.ok (.num 1), []) ∧
    MockQueryHandler.post [⟨"u", "post", "data", 201, "1"⟩] "u" "d" =
      (.ok (.num 1), []) ∧
    MockQueryHandler.put [⟨"u", "put", "data", 200, "1"⟩] "u" "d" =
      (.ok (.num 1), []) ∧
    MockQueryHandler.put [⟨"u", "put", "data", 201, "1"⟩] "u" "d" =
      (.ok (.num 1), []) ∧
    MockQueryHandler.put [⟨"u", "put", "data", 204, "1"⟩] "u" "d" =
      (.ok (.num 1), []) :=
  ⟨rfl, rfl, rfl, rfl, rfl, rfl, rfl, rfl, rfl⟩

/-- C3: Path and verb mismatches raise `ExpectationFailed` naming both the
expected and the actual value, but a body mismatch raises `AttributeError`
instead — the source joins the message with `.` rather than `+`, which
Python evaluates as attribute access on a string literal. -/
theorem body_mismatch_raises_attributeerror :
    MockQueryHandler.get [⟨"u", "get", "", 200, "1"⟩] "v" =
      (.error (.expectationFailed "Expected URL u , got v"), []) ∧
    MockQueryHandler.get [⟨"u", "post", "", 200, "1"⟩] "u" =
      (.error (.expectationFailed "Expected post query, got get query"), []) ∧
    MockQueryHandler.get [⟨"u", "get", "x", 200, "1"⟩] "u" =
      (.error (.attributeError "str object has no attribute exp"), []) :=
  ⟨rfl, rfl, rfl⟩

/-- C4: The mock's `post` and `put` compare the literal string of the four
letters d, a, t, a against `expected_body`, not their `data` argument: two
posts whose data arguments differ and neither of which equals the expected
body both pass the check, while a put whose data argument equals the
expected body exactly still fails it. -/
theorem post_put_compare_literal_not_argument :
    ("AAA" : String) ≠ "data" ∧ ("BBB" : String) ≠ "data" ∧
    MockQueryHandler.post
        [⟨"u", "post", "data", 201, "1"⟩, ⟨"u", "post", "data", 201, "2"⟩]
        "u" "AAA" = (.ok (.num 1), [⟨"u", "post", "data", 201, "2"⟩]) ∧
    MockQueryHandler.post [⟨"u", "post", "data", 201, "2"⟩] "u" "BBB" =
      (.ok (.num 2), []) ∧
    MockQueryHandler.put [⟨"u", "put", "x", 200, "1"⟩] "u" "x" =
      (.error (.attributeError "str object has no attribute exp"), []) :=
  ⟨by decide, by decide, rfl, rfl, rfl⟩

/-- C5 (counterexample): two expectations that differ only in their stubbed
response are distinct, yet the call matching the second one, issued first,
succeeds — it is matched against the head and returns the head's stub — so
mere distinctness of the queued records does not make the out-of-order call
fail. -/
theorem fifo_fails_for_response_only_difference :
    (⟨"u", "get", "", 200, "1"⟩ : Expectation) ≠ ⟨"u", "get", "", 200, "2"⟩ ∧
    runCall [⟨"u", "get", "", 200, "1"⟩, ⟨"u", "get", "", 200, "2"⟩]
        ⟨.get, "u", none⟩ =
      (.ok (.num 1), [⟨"u", "get", "", 200, "2"⟩]) :=
  ⟨by decide, rfl⟩

/-- C5 (amended): expectations are consumed strictly FIFO for calls the head
check can tell apart: when the call for A succeeds against [A] alone, the
call for B succeeds against [B] alone, and B's call does not match A's
url/verb/body triple, then issuing A's call and afterwards B's call on the
queue [A, B] returns both results normally, while issuing B's call first
fails because it is matched against A, the head. -/
theorem fifo_order_for_distinguishable_calls (A B : Expectation)
    (cA cB : Call)
    (hA : okResult (runCall [A] cA) = true)
    (hB : okResult (runCall [B] cB) = true)
    (hMis : ¬ matchesCall A cB) :
    runCall [A, B] cA = ((runCall [A] cA).1, [B]) ∧
    okResult (runCall [A, B] cA) = true ∧
    okResult (runCall (runCall [A, B] cA).2 cB) = true ∧
    okResult (runCall [A, B] cB) = false := by
  have h1 := runCall_cons A [B] cA
  refine ⟨h1, ?_, ?_, runCall_mismatch A [B] cB hMis⟩
  · rw [h1]; exact hA
  · rw [h1]; exact hB

/-- C5 (witness): the amended FIFO statement at concrete data. -/
theorem fifo_order_for_distinguishable_calls_witness :
    okResult (runCall [⟨"u", "get", "", 200, "1"⟩] ⟨.get, "u", none⟩) = true ∧
    okResult (runCall [⟨"v", "get", "", 200, "2"⟩] ⟨.get, "v", none⟩) = true ∧
    ¬ matchesCall ⟨"u", "get", "", 200, "1"⟩ ⟨.get, "v", none⟩ ∧
    (runCall [⟨"u", "get", "", 200, "1"⟩, ⟨"v", "get", "", 200, "2"⟩]
        ⟨.get, "u", none⟩ =
      ((runCall [⟨"u", "get", "", 200, "1"⟩] ⟨.get, "u", none⟩).1,
        [⟨"v", "get", "", 200, "2"⟩]) ∧
    okResult (runCall [⟨"u", "get", "", 200, "1"⟩, ⟨"v", "get", "", 200, "2"⟩]
        ⟨.get, "u", none⟩) = true ∧
    okResult (runCall
        (runCall [⟨"u", "get", "", 200, "1"⟩, ⟨"v", "get", "", 200, "2"⟩]
          ⟨.get, "u", none⟩).2 ⟨.get, "v", none⟩) = true ∧
    okResult (runCall [⟨"u", "get", "", 200, "1"⟩, ⟨"v", "get", "", 200, "2"⟩]
        ⟨.get, "v", none⟩) = false) :=
  ⟨by decide, by decide, by decide,
    fifo_order_for_distinguishable_calls _ _ _ _ (by decide) (by decide)
      (by decide)⟩

/-- C6: Every mock transport operation on an empty expectation queue fails
with the empty-sequence access error of `pop(0)` (Python's `IndexError`)
rather than returning a result, and the queue stays empty. -/
theorem empty_queue_index_error (url data : String) :
    MockQueryHandler.get [] url =
      (.error (.indexError "pop from empty list"), []) ∧
    MockQueryHandler.delete [] url =
      (.error (.indexError "pop from empty list"), []) ∧
    MockQueryHandler.post [] url data =
      (.error (.indexError "pop from empty list"), []) ∧
    MockQueryHandler.put [] url data =
      (.error (.indexError "pop from empty list"), []) :=
  ⟨rfl, rfl, rfl, rfl⟩

/-- C7 (counterexample): the expectation list is a class attribute, so it is
not owned per instance: before instance 0 enqueues anything, instance 1
observes an empty queue, and after instance 0 enqueues one expectation,
instance 1 observes — and would dequeue — exactly that expectation. -/
theorem expectation_queue_shared_counterexample :
    (0 : Nat) ≠ 1 ∧
    classGetExpectation ([] : List Expectation) 1 =
      .error (.indexError "pop from empty list") ∧
    classGetExpectation (classAddExpectation [] 0 "u" "get" "" 200 "1") 1 =
      .ok (⟨"u", "get", "", 200, "1"⟩, []) :=
  ⟨by decide, rfl, rfl⟩

/-- C7 (amended): the expectation queue is class-level state shared by all
`MockQueryHandler` instances: `add_expectation` appends to the single shared
list no matter which instance receives the call, and the appended
expectation is observed (matched and dequeued) by every instance. -/
theorem expectation_queue_class_level_shared (w : List Expectation)
    (i j : Nat) (u q b : String) (code : Int) (rb : String) :
    classAddExpectation w i u q b code rb =
      classAddExpectation w j u q b code rb ∧
    classAddExpectation w i u q b code rb = w ++ [⟨u, q, b, code, rb⟩] ∧
    classGetExpectation (classAddExpectation [] i u q b code rb) j =
      .ok (⟨u, q, b, code, rb⟩, []) :=
  ⟨rfl, rfl, rfl⟩

/-- C8: With a matching head expectation and an accepted stub status code,
`get`, `post` and `put` return the JSON-decoded stub response body, but
`delete` raises `AttributeError` — the source reads `result.body` on a dict
— and never returns the decoded body. -/
theorem delete_attributeerror_on_success_path :
    MockQueryHandler.get [⟨"u", "get", "", 200, "\"x\""⟩] "u" =
      (.ok (.str "x"), []) ∧
    MockQueryHandler.post [⟨"u", "post", "data", 201, "[]"⟩] "u" "d" =
      (.ok (.arr []), []) ∧
    MockQueryHandler.put [⟨"u", "put", "data", 204, "null"⟩] "u" "d" =
      (.ok .null, []) ∧
    MockQueryHandler.delete [⟨"u", "delete", "", 200, "\"x\""⟩] "u" =
      (.error (.attributeError "dict object has no attribute body"), []) :=
  ⟨rfl, rfl, rfl, rfl⟩

/-- C9 (counterexample): `encode` leaves `/` unencoded — `urllib.quote`'s
default `safe` parameter keeps it — so a value containing `/` is not
percent-encoded into a single path segment: the output still contains the
raw slash and no percent escape at all. -/
theorem encode_leaves_slash_unencoded :
    encode "a/b" = "a/b" ∧ '/' ∈ (encode "a/b").data ∧
    (encode "a/b").data.contains '%' = false :=
  ⟨rfl, by decide, by decide⟩

/-- C9 (amended): `encode` percent-encodes every character outside
`urllib`'s always-safe set except `/`, which passes through unencoded, so
every output character is always-safe, a kept `/`, or the `%` of an escape
— safe for a path, though not for a single segment — and
`get_domain_availability(name)` requests exactly
`domain/search/{encode(name)}`. -/
theorem encode_charset_and_availability_path (α : Type) (qh : QueryHandler α)
    (name s : String) :
    ActionHandler.get_domain_availability qh name =
      qh.get ("domain/search/" ++ encode name) ∧
    pathCharsetOk s = true := by
  refine ⟨rfl, ?_⟩
  unfold pathCharsetOk encode
  exact quoteChars_charset s.data

/-- C10: Every mock transport call on a non-empty queue removes exactly the
head expectation and leaves the tail unchanged and in order — the returned
queue is the old tail whatever the outcome of the call, so a failing call
also leaves the queue one element shorter. -/
theorem mock_call_pops_exactly_head (e : Expectation) (t : List Expectation)
    (url data : String) :
    (MockQueryHandler.get (e :: t) url).2 = t ∧
    (MockQueryHandler.delete (e :: t) url).2 = t ∧
    (MockQueryHandler.post (e :: t) url data).2 = t ∧
    (MockQueryHandler.put (e :: t) url data).2 = t := by
  rw [mockGet_cons, mockDelete_cons, mockPost_cons, mockPut_cons]
  exact ⟨rfl, rfl, rfl, rfl⟩

end DotRoll
